import Mathlib

/-!
Verification development for the Cartographer schema-inference engine
(`inference.py`, merge protocol of `app.py`).

Embedding conventions
- Python `str` is modelled as Lean `String`; character-level processing is
  done on `List Char` (`String.toList`), an exact model of Python's
  sequence-of-characters view (ASCII-faithful lowercasing).
- Python floats are modelled as `ℚ`; `round(x, 3)` is modelled as exact
  decimal rounding half-to-even (`round3`), Python's rounding mode.
- A pandas `DataFrame` is a named row count plus an ordered list of columns;
  a column carries its name, its pandas dtype class, and its cell values
  rendered as `astype(str)` strings (`none` = null/NaN).
- The two signals whose raw values involve a square root (cosine similarity
  of frequency histograms, Pearson correlation of null masks) are carried as
  their signed squares, an order-isomorphic encoding on [-1, 1]; the bucket
  thresholds are compared against the squared thresholds, which is exactly
  equivalent.  No downstream computation reads these raw values.
- `pandas.Series.sample(n, random_state=seed)` is modelled by a
  deterministic seeded pseudo-random selection (`sampleSeeded`).  The
  ambient interpreter randomness that `sample` would consult if no seed were
  fixed is modelled as an explicit `rng : ℕ` argument threaded through the
  engine; the source pins `random_state=42`, so the model ignores `rng`.
-/

/-- ASCII model of Python `str.lower` composed with the regex
`[^a-z0-9] -> _` of `clean_name` (inference.py line 87): a character is kept
iff it is a lowercase letter or digit after lowercasing. -/
def isCleanChar (c : Char) : Bool := (('a' ≤ c) && (c ≤ 'z')) || (('0' ≤ c) && (c ≤ '9'))

/-- Model of `re.sub(r"_+", "_", n)` (inference.py line 88): collapse each
run of underscores to a single underscore. -/
def collapseUnd : List Char → List Char
  | [] => []
  | [c] => [c]
  | c :: d :: rest =>
    if c == '_' && d == '_' then collapseUnd (d :: rest) else c :: collapseUnd (d :: rest)

/-- Model of `str.strip("_")` (inference.py line 88). -/
def stripUnd (l : List Char) : List Char :=
  ((l.dropWhile (fun c => c == '_')).reverse.dropWhile (fun c => c == '_')).reverse

/-- Character-list core of `clean_name` (inference.py lines 85-89). -/
def cleanCL (cs : List Char) : List Char :=
  stripUnd (collapseUnd (cs.map (fun c =>
    if isCleanChar c.toLower then c.toLower else '_')))

/-- `clean_name` (inference.py lines 85-89): lowercase, non-alphanumeric to
underscore, collapse repeats, strip leading/trailing underscores. -/
def clean_name (s : String) : String := (cleanCL s.toList).asString

/-- Python `str.endswith` on the `List Char` model: the last `|suf|`
characters equal `suf`. -/
def endsWithCL (s suf : List Char) : Bool :=
  decide (suf.length ≤ s.length) && decide (s.drop (s.length - suf.length) = suf)

/-- Python `str.startswith` on the `List Char` model. -/
def startsWithCL (s pre : List Char) : Bool := pre.isPrefixOf s

/-- Drop the last `n` characters. -/
def dropLastCL (s : List Char) (n : ℕ) : List Char := s.take (s.length - n)

/-- `re.search` of an unanchored literal: substring containment. -/
def containsSub (s sub : List Char) : Bool :=
  (List.range (s.length + 1)).any (fun i => sub.isPrefixOf (s.drop i))

/-- Character-list core of `id_stem` (inference.py lines 92-94):
`re.sub(r"_id$", "", col_clean)` strips one trailing `_id` and nothing else. -/
def id_stemCL (s : List Char) : List Char :=
  if endsWithCL s (("_id").toList) then dropLastCL s 3 else s

/-- `id_stem` (inference.py lines 92-94). -/
def id_stem (col_clean : String) : String := (id_stemCL col_clean.toList).asString

/-- Character-list core of the inline stem used by `_score_candidate`
(inference.py lines 421-422): `re.sub(r"_(id|key|code|num|no)$", "", c)`.
The five suffixes end in pairwise distinct characters, so at most one of
them can match at the end of a string and the branch order is immaterial. -/
def scoreStemCL (s : List Char) : List Char :=
  if endsWithCL s (("_id").toList) then dropLastCL s 3
  else if endsWithCL s (("_key").toList) then dropLastCL s 4
  else if endsWithCL s (("_code").toList) then dropLastCL s 5
  else if endsWithCL s (("_num").toList) then dropLastCL s 4
  else if endsWithCL s (("_no").toList) then dropLastCL s 3
  else s

/-- String wrapper for the scorer's inline stem (inference.py lines 421-422). -/
def scoreStem (s : String) : String := (scoreStemCL s.toList).asString

/-- String wrapper of `endsWithCL`. -/
def endsWithStr (s suf : String) : Bool := endsWithCL s.toList suf.toList

/-- String wrapper of `startsWithCL`. -/
def startsWithStr (s pre : String) : Bool := startsWithCL s.toList pre.toList

/-- String wrapper of `containsSub`. -/
def containsStr (s sub : String) : Bool := containsSub s.toList sub.toList

/-- `is_pk_name` (inference.py lines 97-104). -/
def is_pk_name (col_clean tname_clean : String) : Bool :=
  if col_clean == ("id") then true
  else if col_clean == tname_clean ++ ("_id") then true
  else if endsWithStr col_clean ("_id") && startsWithStr tname_clean (id_stem col_clean) then true
  else false

/-- `is_fk_for` (inference.py lines 107-112). -/
def is_fk_for (col_clean t2_clean : String) : Bool :=
  if col_clean == t2_clean ++ ("_id") then true
  else if endsWithStr col_clean ("_id") && startsWithStr t2_clean (id_stem col_clean) then true
  else false

/-- Round a rational half-to-even to an integer: exact model of Python's
`round` tie-breaking (banker's rounding). -/
def rhe (x : ℚ) : ℤ :=
  if x - ⌊x⌋ < 1/2 then ⌊x⌋
  else if 1/2 < x - ⌊x⌋ then ⌊x⌋ + 1
  else if ⌊x⌋ % 2 = 0 then ⌊x⌋ else ⌊x⌋ + 1

/-- Model of Python `round(x, 3)` (inference.py lines 482-485). -/
def round3 (q : ℚ) : ℚ := ((rhe (q * 1000) : ℤ) : ℚ) / 1000

theorem rhe_floor_le (x : ℚ) : ⌊x⌋ ≤ rhe x := by
  unfold rhe; split_ifs <;> omega

theorem rhe_le_floor_add_one (x : ℚ) : rhe x ≤ ⌊x⌋ + 1 := by
  unfold rhe; split_ifs <;> omega

theorem rhe_mono {x y : ℚ} (h : x ≤ y) : rhe x ≤ rhe y := by
  have hf : ⌊x⌋ ≤ ⌊y⌋ := Int.floor_mono h
  rcases lt_or_eq_of_le hf with hlt | heq
  · have h1 := rhe_le_floor_add_one x
    have h2 := rhe_floor_le y
    omega
  · have hc : ((⌊x⌋ : ℤ) : ℚ) = ((⌊y⌋ : ℤ) : ℚ) := by exact_mod_cast heq
    have hq : x - ((⌊x⌋ : ℤ) : ℚ) ≤ y - ((⌊y⌋ : ℤ) : ℚ) := by rw [hc]; linarith
    unfold rhe
    split_ifs <;> first | omega | (exfalso; linarith)

theorem round3_mono {x y : ℚ} (h : x ≤ y) : round3 x ≤ round3 y := by
  unfold round3
  have h1 : x * 1000 ≤ y * 1000 := by linarith
  have h2 : ((rhe (x * 1000) : ℤ) : ℚ) ≤ ((rhe (y * 1000) : ℤ) : ℚ) :=
    Int.cast_le.mpr (rhe_mono h1)
  gcongr

/-- The ten signal buckets of `WEIGHT_MAP` (inference.py lines 54-65). -/
inductive SignalKind
  | naming_exact
  | cardinality_match
  | overlap_high
  | name_sim
  | overlap_medium
  | dist_high
  | format_match
  | dist_med
  | name_sim_weak
  | null_corr
deriving DecidableEq

/-- `WEIGHT_MAP` (inference.py lines 54-65). -/
def WEIGHT_MAP : List (SignalKind × ℚ) :=
  [(SignalKind.naming_exact,      1.00),
   (SignalKind.cardinality_match, 0.95),
   (SignalKind.overlap_high,      0.90),
   (SignalKind.name_sim,          0.60),
   (SignalKind.overlap_medium,    0.55),
   (SignalKind.dist_high,         0.50),
   (SignalKind.format_match,      0.40),
   (SignalKind.dist_med,          0.30),
   (SignalKind.name_sim_weak,     0.25),
   (SignalKind.null_corr,         0.20)]

/-- `WEIGHT_MAP.get(k, 0.1)` (inference.py line 483). -/
def weightGet (k : SignalKind) : ℚ := ((WEIGHT_MAP.lookup k).getD (0.1))

/-- `LABEL_MAP` (inference.py lines 67-78). -/
def LABEL_MAP : List (SignalKind × String) :=
  [(SignalKind.naming_exact,      ("naming")),
   (SignalKind.name_sim,          ("name_similarity")),
   (SignalKind.name_sim_weak,     ("name_similarity")),
   (SignalKind.overlap_high,      ("value_overlap")),
   (SignalKind.overlap_medium,    ("value_overlap")),
   (SignalKind.cardinality_match, ("cardinality")),
   (SignalKind.format_match,      ("format")),
   (SignalKind.dist_high,         ("distribution")),
   (SignalKind.dist_med,          ("distribution")),
   (SignalKind.null_corr,         ("null_pattern"))]

/-- `LABEL_MAP.get(k, "content")` (inference.py line 488). -/
def labelGet (k : SignalKind) : String := ((LABEL_MAP.lookup k).getD (("content")))

/-- `CONF_RANK` (inference.py line 80). -/
def CONF_RANK : List (String × ℕ) := [(("low"), 0), (("medium"), 1), (("high"), 2)]

/-- `CONF_RANK.get(s, 1)` as used for `min_confidence` (inference.py line 299). -/
def confRankDefault1 (s : String) : ℕ := ((CONF_RANK.lookup s).getD 1)

/-- `CONF_RANK.get(s, 0)` as used on computed confidences (lines 360, 381). -/
def confRankDefault0 (s : String) : ℕ := ((CONF_RANK.lookup s).getD 0)

/-- Composite noisy-OR score over the fired signal keys (inference.py lines
481-485): `round(min(1.0, 1.0 - prod(1.0 - WEIGHT_MAP.get(k, 0.1))), 3)`. -/
def compositeOf (ks : List SignalKind) : ℚ :=
  round3 (min 1 (1 - (ks.map (fun k => 1 - weightGet k)).prod))

/-- Confidence tier of a composite score (inference.py line 489). -/
def tierOf (score : ℚ) : String :=
  if (0.85 : ℚ) ≤ score then ("high")
  else if (0.55 : ℚ) ≤ score then ("medium")
  else ("low")

theorem weightGet_eval_naming_exact : weightGet SignalKind.naming_exact = 1.00 := rfl

theorem weightGet_eval_cardinality_match : weightGet SignalKind.cardinality_match = 0.95 := rfl

theorem weightGet_eval_overlap_high : weightGet SignalKind.overlap_high = 0.90 := rfl

theorem weightGet_eval_name_sim : weightGet SignalKind.name_sim = 0.60 := rfl

theorem weightGet_eval_overlap_medium : weightGet SignalKind.overlap_medium = 0.55 := rfl

theorem weightGet_eval_dist_high : weightGet SignalKind.dist_high = 0.50 := rfl

theorem weightGet_eval_format_match : weightGet SignalKind.format_match = 0.40 := rfl

theorem weightGet_eval_dist_med : weightGet SignalKind.dist_med = 0.30 := rfl

theorem weightGet_eval_name_sim_weak : weightGet SignalKind.name_sim_weak = 0.25 := rfl

theorem weightGet_eval_null_corr : weightGet SignalKind.null_corr = 0.20 := rfl

theorem weightGet_bounds (k : SignalKind) : 0 < weightGet k ∧ weightGet k ≤ 1 := by
  cases k <;>
    norm_num [weightGet_eval_naming_exact, weightGet_eval_cardinality_match,
      weightGet_eval_overlap_high, weightGet_eval_name_sim, weightGet_eval_overlap_medium,
      weightGet_eval_dist_high, weightGet_eval_format_match, weightGet_eval_dist_med,
      weightGet_eval_name_sim_weak, weightGet_eval_null_corr]

theorem oneSubWeight_mem (k : SignalKind) : 0 ≤ 1 - weightGet k ∧ 1 - weightGet k < 1 := by
  have h := weightGet_bounds k
  constructor <;> linarith [h.1, h.2]

theorem prodOneSubWeight_bounds (ks : List SignalKind) :
    0 ≤ (ks.map (fun k => 1 - weightGet k)).prod ∧
    (ks.map (fun k => 1 - weightGet k)).prod ≤ 1 := by
  induction ks with
  | nil => simp
  | cons k rest ih =>
    have hk := oneSubWeight_mem k
    simp only [List.map_cons, List.prod_cons]
    constructor
    · exact mul_nonneg hk.1 ih.1
    · calc (1 - weightGet k) * (rest.map (fun k => 1 - weightGet k)).prod
          ≤ 1 * 1 := by
            apply mul_le_mul (by linarith [hk.2]) ih.2 ih.1 (by norm_num)
        _ = 1 := by norm_num

/-- Matching window half-width (inference.py lines 129-130):
`max(l1, l2) // 2 - 1`, clamped at 0 (ℕ subtraction models the clamp). -/
def jwMatchDist (s1 s2 : List Char) : ℕ := max s1.length s2.length / 2 - 1

/-- Inner loop of the match scan (inference.py lines 136-145): the first
index `j` in the window `[max(0, i-md), min(i+md+1, l2))` whose character is
unmatched so far and equals `s1[i]`. -/
def jwFindMatch (s1 s2 : List Char) (md : ℕ) (m2 : List Bool) (i : ℕ) : Option ℕ :=
  (List.range' (i - md) (min (i + md + 1) s2.length - (i - md))).find?
    (fun j => !(m2.getD j true) && (s1.getD i ' ' == s2.getD j ' '))

/-- Outer match scan (inference.py lines 131-145), returning the two match
masks and the match count. -/
def jwMatchFold (s1 s2 : List Char) (md : ℕ) : List Bool × List Bool × ℕ :=
  (List.range s1.length).foldl (fun st i =>
    match jwFindMatch s1 s2 md st.2.1 i with
    | some j => (st.1.set i true, st.2.1.set j true, st.2.2 + 1)
    | none => st)
    (List.replicate s1.length false, List.replicate s2.length false, 0)

/-- Model of `while not s2_matches[k]: k += 1` (inference.py lines 154-155):
first index `≥ k` whose mask entry is true. -/
def nextTrue (l : List Bool) (k : ℕ) : ℕ :=
  match (List.range' k (l.length - k)).find? (fun j => l.getD j false) with
  | some j => j
  | none => l.length

/-- Transposition count (inference.py lines 150-158). -/
def jwTransFold (s1 s2 : List Char) (m1 m2 : List Bool) : ℕ :=
  ((List.range s1.length).foldl (fun st i =>
    if m1.getD i false then
      (nextTrue m2 st.1 + 1,
       st.2 + (if s1.getD i ' ' == s2.getD (nextTrue m2 st.1) ' ' then 0 else 1))
    else st) (0, 0)).2

/-- Match and transposition counts of the Jaro alignment. -/
def jwCounts (s1 s2 : List Char) : ℕ × ℕ :=
  ((jwMatchFold s1 s2 (jwMatchDist s1 s2)).2.2,
   jwTransFold s1 s2 (jwMatchFold s1 s2 (jwMatchDist s1 s2)).1
     (jwMatchFold s1 s2 (jwMatchDist s1 s2)).2.1)

/-- The Jaro similarity expression (inference.py line 160); 0 when no
characters match. -/
def jaroSim (s1 s2 : List Char) : ℚ :=
  if (jwCounts s1 s2).1 = 0 then 0
  else (((jwCounts s1 s2).1 : ℚ) / s1.length + ((jwCounts s1 s2).1 : ℚ) / s2.length +
        (((jwCounts s1 s2).1 : ℚ) - ((jwCounts s1 s2).2 : ℚ) / 2) / ((jwCounts s1 s2).1 : ℚ)) / 3

/-- The prefix factor of the Winkler boost (inference.py line 161):
`sum(1 for i in range(min(4, l1, l2)) if s1[i] == s2[i])` — the number of
agreeing positions among the first `min(4, l1, l2)`, consecutive or not. -/
def prefAgreeCount (s1 s2 : List Char) : ℕ :=
  ((List.range (min (min 4 s1.length) s2.length)).filter
    (fun i => s1.getD i ' ' == s2.getD i ' ')).length

/-- `_jaro_winkler` (inference.py lines 122-162). -/
def jaro_winkler (s1 s2 : List Char) : ℚ :=
  if s1 = s2 then 1
  else if s1.length = 0 ∨ s2.length = 0 then 0
  else if (jwCounts s1 s2).1 = 0 then 0
  else jaroSim s1 s2 + (prefAgreeCount s1 s2 : ℚ) * 0.1 * (1 - jaroSim s1 s2)

/-- String wrapper of `_jaro_winkler`. -/
def jaroWinklerStr (a b : String) : ℚ := jaro_winkler a.toList b.toList

/-- Modelled from the spec's words, for comparison against the source: the
length of the common prefix in the standard Jaro-Winkler sense — the number
of consecutive leading positions at which the two strings agree — capped at
4 characters. -/
def specConsecPrefixLen (s1 s2 : List Char) : ℕ :=
  min (((s1.zip s2).takeWhile (fun p => p.1 == p.2)).length) 4

/-- The three derived dtype classes of `_col_dtype_class`
(inference.py lines 165-170). -/
inductive DClass
  | numeric
  | datetime
  | stringOther
deriving DecidableEq

/-- A pandas Series: its column name, its pandas dtype class, and its cells
rendered as `astype(str)` strings, `none` marking null/NaN. -/
structure Column where
  name : String
  dcls : DClass
  vals : List (Option String)
deriving DecidableEq

/-- A pandas DataFrame: `len(df)` plus the ordered columns. -/
structure DataFrame where
  nrows : ℕ
  cols : List Column
deriving DecidableEq

/-- `_col_dtype_class` (inference.py lines 165-170): the derived type class
of a series, read off the column's pandas dtype. -/
def col_dtype_class (c : Column) : DClass := c.dcls

/-- Keep the first occurrence of each value: model of the order-preserving
`pandas.Series.unique`. -/
def dedupKeepFirst (l : List String) : List String :=
  l.foldl (fun acc v => if acc.contains v then acc else acc ++ [v]) []

/-- `_value_overlap` (inference.py lines 184-189): fraction of the source's
distinct values (first 50000) found among the target's distinct values
(first 50000); 0 when the source set is empty. -/
def value_overlap (vals1 vals2 : List (Option String)) : ℚ :=
  if ((dedupKeepFirst (vals1.filterMap id)).take 50000).isEmpty then 0
  else ((((dedupKeepFirst (vals1.filterMap id)).take 50000).filter
          (fun v => ((dedupKeepFirst (vals2.filterMap id)).take 50000).contains v)).length : ℚ) /
       (((dedupKeepFirst (vals1.filterMap id)).take 50000).length : ℚ)

/-- Set equality of the two dropna value collections, as Python
`set(..) == set(..)` (inference.py lines 447-449). -/
def setEqStr (u1 u2 : List String) : Bool :=
  u1.all (fun v => u2.contains v) && u2.all (fun v => u1.contains v)

/-- A linear congruential step; part of the deterministic model of the
seeded pandas sampler. -/
def lcgStep (s : ℕ) : ℕ := (1103515245 * s + 12345) % 2147483648

/-- Fuel-indexed selection core of the seeded sampler model: repeatedly pick
the index `state % length`, remove it, and continue with the stepped state. -/
def sampleGo (state : ℕ) (xs : List String) : ℕ → List String
  | 0 => []
  | n + 1 =>
    match xs.get? (state % xs.length) with
    | none => []
    | some x =>
      x :: sampleGo (lcgStep state) (xs.take (state % xs.length) ++ xs.drop (state % xs.length + 1)) n

/-- Deterministic model of `pandas.Series.sample(n, random_state=seed)`:
a pseudo-random selection of `n` elements fully determined by `seed` and the
input list. -/
def sampleSeeded (seed : ℕ) (xs : List String) (n : ℕ) : List String :=
  sampleGo (lcgStep seed) xs n

/-- Python `\d` on ASCII. -/
def isDigitCh (c : Char) : Bool := ('0' ≤ c) && (c ≤ '9')

/-- Hex digit, case-insensitive (`[0-9a-f]` under `re.I`). -/
def isHexCI (c : Char) : Bool :=
  isDigitCh c || (('a' ≤ c) && (c ≤ 'f')) || (('A' ≤ c) && (c ≤ 'F'))

/-- Python `\s` on ASCII. -/
def isSpaceCh (c : Char) : Bool :=
  c == ' ' || c == '\t' || c == '\n' || c == '\r' || c == '\x0b' || c == '\x0c'

/-- `^[0-9a-f]{8}-[0-9a-f]{4}-[0-9a-f]{4}-[0-9a-f]{4}-[0-9a-f]{12}$` with
`re.I` (inference.py line 43). -/
def patUuid (cs : List Char) : Bool :=
  cs.length == 36 &&
  (List.range 36).all (fun i =>
    if i == 8 || i == 13 || i == 18 || i == 23 then cs.getD i ' ' == '-'
    else isHexCI (cs.getD i ' '))

/-- `^[^@\s]+@[^@\s]+\.[^@\s]+$` (inference.py line 44): exactly one `@`,
a nonempty local part, no whitespace, and a dot splitting the domain into
two nonempty pieces. -/
def patEmail (cs : List Char) : Bool :=
  cs.count '@' == 1 &&
  (cs.takeWhile (fun c => !(c == '@'))).length ≥ 1 &&
  (cs.takeWhile (fun c => !(c == '@'))).all (fun c => !(isSpaceCh c)) &&
  ((cs.dropWhile (fun c => !(c == '@'))).tail.all (fun c => !(isSpaceCh c))) &&
  (List.range (cs.dropWhile (fun c => !(c == '@'))).tail.length).any (fun p =>
    (cs.dropWhile (fun c => !(c == '@'))).tail.getD p ' ' == '.' &&
    1 ≤ p && p + 1 < (cs.dropWhile (fun c => !(c == '@'))).tail.length)

/-- `^\d{5}(-\d{4})?$` (inference.py line 45). -/
def patZipUs (cs : List Char) : Bool :=
  (cs.length == 5 && cs.all isDigitCh) ||
  (cs.length == 10 && (cs.take 5).all isDigitCh && cs.getD 5 ' ' == '-' &&
   (cs.drop 6).all isDigitCh)

/-- `^\+?[\d\s\-().]{7,15}$` (inference.py line 46). -/
def patPhone (cs : List Char) : Bool :=
  let rest := if cs.getD 0 ' ' == '+' && cs.length ≥ 1 then cs.tail else cs
  7 ≤ rest.length && rest.length ≤ 15 &&
  rest.all (fun c => isDigitCh c || isSpaceCh c || c == '-' || c == '(' || c == ')' || c == '.')

/-- `^\d{4}-\d{2}-\d{2}$` (inference.py line 47). -/
def patIsoDate (cs : List Char) : Bool :=
  cs.length == 10 &&
  (List.range 10).all (fun i =>
    if i == 4 || i == 7 then cs.getD i ' ' == '-' else isDigitCh (cs.getD i ' '))

/-- `^\d{4}-\d{2}-\d{2}[ T]\d{2}:\d{2}` (inference.py line 48): a prefix
match, no end anchor. -/
def patIsoTs (cs : List Char) : Bool :=
  cs.length ≥ 16 &&
  (List.range 16).all (fun i =>
    if i == 4 || i == 7 then cs.getD i ' ' == '-'
    else if i == 10 then cs.getD i ' ' == ' ' || cs.getD i ' ' == 'T'
    else if i == 13 then cs.getD i ' ' == ':'
    else isDigitCh (cs.getD i ' '))

/-- `^#[0-9a-f]{3,6}$` with `re.I` (inference.py line 49). -/
def patHexColor (cs : List Char) : Bool :=
  cs.getD 0 ' ' == '#' && 3 ≤ cs.tail.length && cs.tail.length ≤ 6 && cs.tail.all isHexCI

/-- `^\d{1,6}$` (inference.py line 50). -/
def patIntCode (cs : List Char) : Bool :=
  1 ≤ cs.length && cs.length ≤ 6 && cs.all isDigitCh

/-- `^[A-Z]{2,4}$` (inference.py line 51). -/
def patAlphaCode (cs : List Char) : Bool :=
  2 ≤ cs.length && cs.length ≤ 4 && cs.all (fun c => ('A' ≤ c) && (c ≤ 'Z'))

/-- `FORMAT_PATTERNS` (inference.py lines 42-52), in source order. -/
def FORMAT_PATTERNS : List (String × (List Char → Bool)) :=
  [(("uuid"), patUuid),
   (("email"), patEmail),
   (("zip_us"), patZipUs),
   (("phone"), patPhone),
   (("iso_date"), patIsoDate),
   (("iso_ts"), patIsoTs),
   (("hex_color"), patHexColor),
   (("int_code"), patIntCode),
   (("alpha_code"), patAlphaCode)]

/-- `_format_fingerprint` (inference.py lines 173-181).  The `_rng`
parameter stands for the ambient interpreter randomness; the source fixes
`random_state=42`, so it is ignored in favour of the constant seed. -/
def format_fingerprint (_rng : ℕ) (vals : List (Option String)) : Option String :=
  if (vals.filterMap id).isEmpty then none
  else
    FORMAT_PATTERNS.findSome? (fun nmpat =>
      if (4 : ℚ) / 5 ≤
          (((sampleSeeded 42 (vals.filterMap id) (min 200 (vals.filterMap id).length)).countP
             (fun v => nmpat.2 v.toList)) : ℚ) /
          ((sampleSeeded 42 (vals.filterMap id) (min 200 (vals.filterMap id).length)).length : ℚ)
      then some nmpat.1 else none)

/-- `value_counts` of the dropna values: each distinct value with its
multiplicity (order immaterial for the dot products below). -/
def valueCounts (vals : List (Option String)) : List (String × ℕ) :=
  (dedupKeepFirst (vals.filterMap id)).map (fun v => (v, (vals.filterMap id).count v))

/-- Helper: sum of pairwise products of two count vectors over a vocabulary. -/
def dotCounts (s1 s2 : List (String × ℕ)) (vocab : List String) : ℚ :=
  (vocab.map (fun w => (((s1.lookup w).getD 0 : ℕ) : ℚ) * (((s2.lookup w).getD 0 : ℕ) : ℚ))).sum

/-- `_distribution_similarity` (inference.py lines 192-204), carried as the
square of the cosine similarity (the cosine itself is an irrational square
root in general; squaring is order-preserving on the nonnegative cosine of
count vectors, and no downstream computation reads the raw value). -/
def distribution_similarity_sq (vals1 vals2 : List (Option String)) : ℚ :=
  if (valueCounts vals1).isEmpty || (valueCounts vals2).isEmpty then 0
  else
    if dotCounts (valueCounts vals1) (valueCounts vals1)
         (dedupKeepFirst ((valueCounts vals1).map Prod.fst ++ (valueCounts vals2).map Prod.fst)) = 0 ∨
       dotCounts (valueCounts vals2) (valueCounts vals2)
         (dedupKeepFirst ((valueCounts vals1).map Prod.fst ++ (valueCounts vals2).map Prod.fst)) = 0
    then 0
    else
      (dotCounts (valueCounts vals1) (valueCounts vals2)
         (dedupKeepFirst ((valueCounts vals1).map Prod.fst ++ (valueCounts vals2).map Prod.fst))) ^ 2 /
      (dotCounts (valueCounts vals1) (valueCounts vals1)
         (dedupKeepFirst ((valueCounts vals1).map Prod.fst ++ (valueCounts vals2).map Prod.fst)) *
       dotCounts (valueCounts vals2) (valueCounts vals2)
         (dedupKeepFirst ((valueCounts vals1).map Prod.fst ++ (valueCounts vals2).map Prod.fst)))

/-- Null mask of a column: 1 where the cell is null (`isna`), else 0. -/
def nullMask (c : Column) : List ℚ :=
  c.vals.map (fun v => if v.isSome then 0 else 1)

/-- `_null_pattern_correlation` (inference.py lines 207-222), carried as the
sign of the covariance times the square of the Pearson correlation of the
two null masks (again an order-isomorphic encoding avoiding the square
root); 0 when the row counts differ or either mask has zero variance. -/
def null_pattern_correlation_sq (df1 : DataFrame) (col1 : Column)
    (df2 : DataFrame) (col2 : Column) : ℚ :=
  if df1.nrows ≠ df2.nrows then 0
  else
    let m1 := nullMask col1
    let m2 := nullMask col2
    let n : ℚ := (m1.length : ℚ)
    let sx := m1.sum
    let sy := m2.sum
    let sxy := ((m1.zip m2).map (fun p => p.1 * p.2)).sum
    let sxx := (m1.map (fun v => v * v)).sum
    let syy := (m2.map (fun v => v * v)).sum
    let cov := n * sxy - sx * sy
    let var1 := n * sxx - sx * sx
    let var2 := n * syy - sy * sy
    if var1 = 0 ∨ var2 = 0 then 0
    else (if 0 ≤ cov then 1 else -1) * cov ^ 2 / (var1 * var2)

/-- `OVERLAP_HIGH` (inference.py line 35). -/
def OVERLAP_HIGH : ℚ := 0.98

/-- `OVERLAP_MEDIUM` (inference.py line 36). -/
def OVERLAP_MEDIUM : ℚ := 0.80

/-- `NAME_SIM_HIGH` (inference.py line 37). -/
def NAME_SIM_HIGH : ℚ := 0.85

/-- `NAME_SIM_MED` (inference.py line 38). -/
def NAME_SIM_MED : ℚ := 0.72

/-- `DIST_SIM_HIGH` (inference.py line 39). -/
def DIST_SIM_HIGH : ℚ := 0.90

/-- `DIST_SIM_MED` (inference.py line 40). -/
def DIST_SIM_MED : ℚ := 0.75

/-- The per-signal enable flags (`_build_flags` result, inference.py lines
386-402).  A Python override dict is read only through `flags.get(key)` on
these six keys, which this fixed record models. -/
structure Flags where
  naming : Bool
  value_overlap : Bool
  cardinality : Bool
  format : Bool
  distribution : Bool
  null_pattern : Bool
deriving DecidableEq

/-- `_build_flags` (inference.py lines 386-402). -/
def build_flags (method : String) (overrides : Option Flags) : Flags :=
  match overrides with
  | some f => f
  | none =>
    { naming := method == ("naming") || method == ("both") || method == ("all"),
      value_overlap := method == ("content") || method == ("both") || method == ("all") || method == ("uniqueness"),
      cardinality := method == ("content") || method == ("both") || method == ("all") || method == ("uniqueness"),
      format := method == ("content") || method == ("both") || method == ("all") || method == ("uniqueness"),
      distribution := method == ("content") || method == ("both") || method == ("all") || method == ("uniqueness"),
      null_pattern := method == ("content") || method == ("both") || method == ("all") || method == ("uniqueness") }

/-- The human-readable reason strings of `_score_candidate`, modelled with
their numeric payloads in place of decimal formatting. -/
inductive Reason
  | exactNaming
  | nameSim (v : ℚ)
  | nameSimWeak (v : ℚ)
  | overlapHigh (v : ℚ)
  | overlapMed (v : ℚ)
  | identicalSets
  | sharedFormat (fmt : String)
  | distHigh (v : ℚ)
  | distMed (v : ℚ)
  | nullCorr (v : ℚ)
deriving DecidableEq

/-- The dict returned by `_score_candidate` (inference.py lines 491-497). -/
structure ScoreResult where
  signals : List (SignalKind × ℚ)
  reasons : List Reason
  score : ℚ
  confidence : String
  detected_by : String
deriving DecidableEq

/-- Naming block of `_score_candidate` (inference.py lines 413-429),
evaluated before the type gate exactly as in the source. -/
def namingSignals (flags : Flags) (col1 : Column) (t2 : String) (col2 : Column) :
    List (SignalKind × ℚ) × List Reason :=
  if flags.naming then
    if is_fk_for (clean_name col1.name) (clean_name t2) then
      ([(SignalKind.naming_exact, 1)], [Reason.exactNaming])
    else
      let sim := jaroWinklerStr (scoreStem (clean_name col1.name)) (scoreStem (clean_name col2.name))
      if NAME_SIM_HIGH ≤ sim then ([(SignalKind.name_sim, sim)], [Reason.nameSim sim])
      else if NAME_SIM_MED ≤ sim then ([(SignalKind.name_sim_weak, sim)], [Reason.nameSimWeak sim])
      else ([], [])
  else ([], [])

/-- Value-overlap block (inference.py lines 436-443). -/
def overlapSignals (flags : Flags) (df1 : DataFrame) (col1 : Column)
    (df2 : DataFrame) (col2 : Column) : List (SignalKind × ℚ) × List Reason :=
  if flags.value_overlap ∧ 0 < df1.nrows ∧ 0 < df2.nrows then
    let ov := value_overlap col1.vals col2.vals
    if OVERLAP_HIGH ≤ ov then ([(SignalKind.overlap_high, ov)], [Reason.overlapHigh ov])
    else if OVERLAP_MEDIUM ≤ ov then ([(SignalKind.overlap_medium, ov)], [Reason.overlapMed ov])
    else ([], [])
  else ([], [])

/-- Cardinality block (inference.py lines 446-451). -/
def cardinalitySignals (flags : Flags) (df1 : DataFrame) (col1 : Column)
    (df2 : DataFrame) (col2 : Column) : List (SignalKind × ℚ) × List Reason :=
  if flags.cardinality ∧ 0 < df1.nrows ∧ 0 < df2.nrows then
    if ¬(col1.vals.filterMap id).isEmpty ∧ ¬(col2.vals.filterMap id).isEmpty ∧
       setEqStr (col1.vals.filterMap id) (col2.vals.filterMap id) then
      ([(SignalKind.cardinality_match, 1)], [Reason.identicalSets])
    else ([], [])
  else ([], [])

/-- Format-fingerprint block (inference.py lines 454-459). -/
def formatSignals (rng : ℕ) (flags : Flags) (df1 : DataFrame) (col1 : Column)
    (df2 : DataFrame) (col2 : Column) : List (SignalKind × ℚ) × List Reason :=
  if flags.format ∧ 0 < df1.nrows ∧ 0 < df2.nrows then
    match format_fingerprint rng col1.vals, format_fingerprint rng col2.vals with
    | some f1, some f2 =>
      if f1 == f2 then ([(SignalKind.format_match, 0.6)], [Reason.sharedFormat f1])
      else ([], [])
    | _, _ => ([], [])
  else ([], [])

/-- Distribution block (inference.py lines 462-469); the carried raw value
is the squared cosine and the thresholds are squared accordingly (the
cosine of count vectors is nonnegative, so this is exactly equivalent). -/
def distributionSignals (flags : Flags) (df1 : DataFrame) (col1 : Column)
    (df2 : DataFrame) (col2 : Column) : List (SignalKind × ℚ) × List Reason :=
  if flags.distribution ∧ 0 < df1.nrows ∧ 0 < df2.nrows then
    let ds := distribution_similarity_sq col1.vals col2.vals
    if DIST_SIM_HIGH ^ 2 ≤ ds then ([(SignalKind.dist_high, ds)], [Reason.distHigh ds])
    else if DIST_SIM_MED ^ 2 ≤ ds then ([(SignalKind.dist_med, ds)], [Reason.distMed ds])
    else ([], [])
  else ([], [])

/-- Null-pattern block (inference.py lines 472-476); the fire threshold
`r >= 0.80` is equivalent to signed-square `>= 0.64`. -/
def nullSignals (flags : Flags) (df1 : DataFrame) (col1 : Column)
    (df2 : DataFrame) (col2 : Column) : List (SignalKind × ℚ) × List Reason :=
  if flags.null_pattern ∧ df1.nrows = df2.nrows then
    let nr := null_pattern_correlation_sq df1 col1 df2 col2
    if (0.80 : ℚ) ^ 2 ≤ nr then ([(SignalKind.null_corr, nr)], [Reason.nullCorr nr])
    else ([], [])
  else ([], [])

/-- Python `max(signals, key=lambda k: WEIGHT_MAP.get(k, 0.1))` (inference.py
line 487): the first key of maximal weight in iteration order. -/
def topSignal (ks : List SignalKind) : Option SignalKind :=
  ks.foldl (fun acc k =>
    match acc with
    | none => some k
    | some b => if weightGet b < weightGet k then some k else some b) none

/-- `_score_candidate` (inference.py lines 404-497).  The naming block runs
first, then the mandatory type gate, then the content blocks; the `rng`
threading models the ambient randomness consumed only by the (seeded)
format sampler. -/
def scoreCandidate (rng : ℕ) (t1 : String) (col1 : Column) (df1 : DataFrame)
    (t2 : String) (col2 : Column) (df2 : DataFrame) (flags : Flags) : Option ScoreResult :=
  let s1 := namingSignals flags col1 t2 col2
  if col_dtype_class col1 ≠ col_dtype_class col2 then none
  else
    let s3 := overlapSignals flags df1 col1 df2 col2
    let s4 := cardinalitySignals flags df1 col1 df2 col2
    let s5 := formatSignals rng flags df1 col1 df2 col2
    let s6 := distributionSignals flags df1 col1 df2 col2
    let s7 := nullSignals flags df1 col1 df2 col2
    let signals := s1.1 ++ s3.1 ++ s4.1 ++ s5.1 ++ s6.1 ++ s7.1
    let reasons := s1.2 ++ s3.2 ++ s4.2 ++ s5.2 ++ s6.2 ++ s7.2
    if signals.isEmpty then none
    else
      some { signals := signals,
             reasons := reasons,
             score := compositeOf (signals.map Prod.fst),
             confidence := tierOf (compositeOf (signals.map Prod.fst)),
             detected_by :=
               match topSignal (signals.map Prod.fst) with
               | some k => labelGet k
               | none => ("content") }

/-- `df[c].notna().all()`. -/
def notnaAll (c : Column) : Bool := c.vals.all (fun v => v.isSome)

/-- `df[c].nunique()`: number of distinct non-null values. -/
def nunique (c : Column) : ℕ := (dedupKeepFirst (c.vals.filterMap id)).length

/-- `re.search(r"(_id|_key|_no|_num|_code)$", clean_name(c))` (inference.py
line 267). -/
def idKeyTailSearch (s : String) : Bool :=
  endsWithStr s ("_id") || endsWithStr s ("_key") || endsWithStr s ("_no") ||
  endsWithStr s ("_num") || endsWithStr s ("_code")

/-- `detect_pks` (inference.py lines 240-273): at most one primary-key
column, naming convention first (when the method includes naming), then
content uniqueness. -/
def detect_pks (df : DataFrame) (table_name : String) (method : String) : List String :=
  match
    (if method == ("naming") || method == ("both") then
      df.cols.find? (fun c => is_pk_name (clean_name c.name) (clean_name table_name))
     else none) with
  | some c => [c.name]
  | none =>
    if (method == ("uniqueness") || method == ("both") || method == ("content") ||
        method == ("all")) ∧ 0 < df.nrows then
      match (df.cols.filter (fun c => notnaAll c && nunique c == df.nrows)).filter
              (fun c => idKeyTailSearch (clean_name c.name)) with
      | c :: _ => [c.name]
      | [] =>
        match df.cols.filter (fun c => notnaAll c && nunique c == df.nrows) with
        | c :: _ => [c.name]
        | [] => []
    else []

/-- Per-table key-like columns of `detect_fks` (inference.py lines 303-311):
fully non-null, fully unique columns of a nonempty table. -/
def pkColsOf (df : DataFrame) : List Column :=
  df.cols.filter (fun c => 0 < df.nrows && notnaAll c && nunique c == df.nrows)

/-- `re.search(r"(_id|_key|id$|key$)", clean_name(c))` (inference.py line
342): contains `_id` or `_key` anywhere, or ends in `id` or `key`. -/
def idKeyLikeSearch (s : String) : Bool :=
  containsStr s ("_id") || containsStr s ("_key") || endsWithStr s ("id") || endsWithStr s ("key")

/-- `too_large` (inference.py line 326). -/
def tooLarge (df : DataFrame) : Bool := 150000 < df.nrows || 300 < df.cols.length

/-- Candidate target columns for one (source df, target df) pair
(inference.py lines 337-343): the target's key-like columns if any, else
all its columns; narrowed to id/key-like names when the source is large. -/
def targetCols (df1 df2 : DataFrame) : List Column :=
  if tooLarge df1 then
    (if (pkColsOf df2).isEmpty then df2.cols else pkColsOf df2).filter
      (fun c => idKeyLikeSearch (clean_name c.name))
  else (if (pkColsOf df2).isEmpty then df2.cols else pkColsOf df2)

/-- Best-scoring target column for one (t1, col1, t2) triple (inference.py
lines 345-356): keep the first strict maximum by score in column order. -/
def bestOverTargets (rng : ℕ) (t1 : String) (col1 : Column) (df1 : DataFrame)
    (t2 : String) (df2 : DataFrame) (flags : Flags) : Option (ScoreResult × Column) :=
  (targetCols df1 df2).foldl (fun acc col2 =>
    match scoreCandidate rng t1 col1 df1 t2 col2 df2 flags with
    | none => acc
    | some res =>
      match acc with
      | none => some (res, col2)
      | some best => if best.1.score < res.score then some (res, col2) else some best) none

/-- The relationship dict appended by `detect_fks` (inference.py lines
369-379). -/
structure RelResult where
  from_table : String
  from_col : String
  to_table : String
  to_col : String
  detected_by : String
  confidence : String
  score : ℚ
  reasons : List Reason
  signals : List (SignalKind × ℚ)
deriving DecidableEq

/-- The mutable loop state of `detect_fks` (inference.py lines 313-315):
accumulated results, the `seen` key set, and the per-source-column running
`best` score map. -/
structure FkState where
  results : List RelResult
  seen : List String
  best : List (String × ℚ)
deriving DecidableEq

/-- Python dict update `best[col_key] = v`: replace the first binding in
place, else append. -/
def assocSet : List (String × ℚ) → String → ℚ → List (String × ℚ)
  | [], k, v => [(k, v)]
  | p :: rest, k, v => if p.1 == k then (k, v) :: rest else p :: assocSet rest k v

/-- Build the appended relationship dict (inference.py lines 369-379). -/
def mkRel (t1 : String) (col1 : Column) (t2 : String) (bcol : Column)
    (r : ScoreResult) : RelResult :=
  { from_table := t1, from_col := col1.name, to_table := t2, to_col := bcol.name,
    detected_by := r.detected_by, confidence := r.confidence, score := r.score,
    reasons := r.reasons, signals := r.signals }

/-- Body of the innermost `for t2 in tnames` loop of `detect_fks`
(inference.py lines 328-379): skip the self pair and seen keys, score the
targets, apply the confidence filter, then the sequential near-best filter,
and on acceptance record the result, mark the key seen, and set the running
best to the accepted score. -/
def processTarget (rng : ℕ) (flags : Flags) (min_rank : ℕ) (t1 : String) (col1 : Column)
    (df1 : DataFrame) (st : FkState) (entry : String × DataFrame) : FkState :=
  if entry.1 == t1 then st
  else if st.seen.contains (t1 ++ ("|") ++ col1.name ++ ("|") ++ entry.1) then st
  else
    match bestOverTargets rng t1 col1 df1 entry.1 entry.2 flags with
    | none => st
    | some best =>
      if confRankDefault0 best.1.confidence < min_rank then st
      else
        if (match st.best.lookup (t1 ++ ("|") ++ col1.name) with
            | some prev => decide (best.1.score + 0.05 < prev)
            | none => false) then st
        else
          { results := st.results ++ [mkRel t1 col1 entry.1 best.2 best.1],
            seen := st.seen ++ [t1 ++ ("|") ++ col1.name ++ ("|") ++ entry.1],
            best := assocSet st.best (t1 ++ ("|") ++ col1.name) best.1.score }

/-- Body of the `for col1 in df1.columns` loop (inference.py lines 322-379):
skip the source table's own key-like columns, then scan every target
table. -/
def processCol (rng : ℕ) (flags : Flags) (min_rank : ℕ)
    (tables : List (String × DataFrame)) (t1 : String) (df1 : DataFrame)
    (st : FkState) (col1 : Column) : FkState :=
  if (pkColsOf df1).any (fun c => c.name == col1.name) then st
  else tables.foldl (processTarget rng flags min_rank t1 col1 df1) st

/-- Body of the `for t1 in tnames` loop (inference.py lines 317-379): skip
empty tables when naming is disabled. -/
def processSource (rng : ℕ) (flags : Flags) (min_rank : ℕ)
    (tables : List (String × DataFrame)) (st : FkState)
    (entry : String × DataFrame) : FkState :=
  if entry.2.nrows == 0 && !flags.naming then st
  else entry.2.cols.foldl (processCol rng flags min_rank tables entry.1 entry.2) st

/-- Final sort of `detect_fks` (inference.py line 381): stable sort by
confidence rank descending then score descending. -/
def sortResults (rs : List RelResult) : List RelResult :=
  rs.mergeSort (fun a b =>
    confRankDefault0 b.confidence < confRankDefault0 a.confidence ||
    (confRankDefault0 a.confidence == confRankDefault0 b.confidence &&
     decide (b.score ≤ a.score)))

/-- `detect_fks` (inference.py lines 275-382).  `tables` is the insertion-
ordered dict of DataFrames; `rng` models the ambient interpreter randomness
(ignored by the seeded format sampler, see `format_fingerprint`).  The
source precomputes `pk_map[t]` once per table from `tables[t]`; the
embedding recomputes `pkColsOf` from the iterated entry's DataFrame, which
is the same thing since dict keys are unique. -/
def detect_fks (tables : List (String × DataFrame)) (method : String)
    (min_confidence : String) (enable_flags : Option Flags) (rng : ℕ) : List RelResult :=
  if method == ("manual") || tables.length < 2 then []
  else
    sortResults
      ((tables.foldl
        (processSource rng (build_flags method enable_flags) (confRankDefault1 min_confidence) tables)
        { results := [], seen := [], best := [] }).results)

/-- A relationship as consumed by the app.py merge (lines 1409-1419): only
the four name fields are read by the merge; any extra payload fields of the
underlying dicts are irrelevant to it. -/
structure AppRel where
  from_table : String
  from_col : String
  to_table : String
  to_col : String
deriving DecidableEq

/-- Column-level key equality, as the 4-tuples of `_schema_keys`
(app.py lines 1411-1412). -/
def relKeyEq (a b : AppRel) : Bool :=
  a.from_table == b.from_table && a.from_col == b.from_col &&
  a.to_table == b.to_table && a.to_col == b.to_col

/-- `_schema_plus_db` (app.py lines 1413-1416): schema relationships, then
the database-constraint relationships whose 4-tuple key is not already
present in the schema list. -/
def schemaPlusDb (schema db : List AppRel) : List AppRel :=
  schema ++ db.filter (fun r => !(schema.any (fun s => relKeyEq s r)))

/-- Membership of a relationship's ordered (from_table, to_table) pair in
`schema_pairs` (app.py line 1417). -/
def pairInDeclared (spdb : List AppRel) (r : AppRel) : Bool :=
  spdb.any (fun d => d.from_table == r.from_table && d.to_table == r.to_table)

/-- `filtered_auto` (app.py line 1418): inferred relationships whose table
pair is not covered by any declared relationship. -/
def filteredAuto (schema db auto : List AppRel) : List AppRel :=
  auto.filter (fun r => !(pairInDeclared (schemaPlusDb schema db) r))

/-- `all_rels` (app.py line 1419): declared, then surviving inferred, then
manual relationships. -/
def mergeRels (schema db auto manual : List AppRel) : List AppRel :=
  schemaPlusDb schema db ++ filteredAuto schema db auto ++ manual

theorem endsWithCL_append_self (l suf : List Char) : endsWithCL (l ++ suf) suf = true := by
  have h : (l ++ suf).length - suf.length = l.length := by simp
  simp [endsWithCL, h, List.drop_left]

theorem endsWithCL_getLast_ne (s suf : List Char) (a b : Char) (hab : a ≠ b)
    (hs : s.getLast? = some a) (hsuf : suf.getLast? = some b) : endsWithCL s suf = false := by
  by_contra hc
  have htrue : endsWithCL s suf = true := by
    cases h : endsWithCL s suf
    · exact absurd h hc
    · rfl
  simp only [endsWithCL, Bool.and_eq_true, decide_eq_true_eq] at htrue
  obtain ⟨hlen, hdrop⟩ := htrue
  have hsufne : suf ≠ [] := by
    intro he
    rw [he] at hsuf
    simp at hsuf
  have hdropne : s.drop (s.length - suf.length) ≠ [] := by rw [hdrop]; exact hsufne
  have hlast : (s.drop (s.length - suf.length)).getLast? = s.getLast? := by
    have hsplit := List.take_append_drop (s.length - suf.length) s
    calc (s.drop (s.length - suf.length)).getLast?
        = ((s.take (s.length - suf.length)) ++ (s.drop (s.length - suf.length))).getLast? :=
          (List.getLast?_append_of_ne_nil _ hdropne).symm
      _ = s.getLast? := by rw [hsplit]
  rw [hdrop, hsuf] at hlast
  rw [hs] at hlast
  exact hab (Option.some.inj hlast).symm

theorem endsWithCL_append_last_ne (base X Y : List Char) (a b : Char) (hab : a ≠ b)
    (hX : X.getLast? = some a) (hY : Y.getLast? = some b) (hXne : X ≠ []) :
    endsWithCL (base ++ X) Y = false :=
  endsWithCL_getLast_ne _ _ a b hab
    (by rw [List.getLast?_append_of_ne_nil _ hXne]; exact hX) hY

theorem dropLastCL_append3 (l : List Char) (a b c : Char) : dropLastCL (l ++ [a, b, c]) 3 = l := by
  have h : (l ++ [a, b, c]).length - 3 = l.length := by simp
  simp [dropLastCL, h, List.take_left]

theorem dropLastCL_append4 (l : List Char) (a b c d : Char) :
    dropLastCL (l ++ [a, b, c, d]) 4 = l := by
  have h : (l ++ [a, b, c, d]).length - 4 = l.length := by simp
  simp [dropLastCL, h, List.take_left]

theorem dropLastCL_append5 (l : List Char) (a b c d e : Char) :
    dropLastCL (l ++ [a, b, c, d, e]) 5 = l := by
  have h : (l ++ [a, b, c, d, e]).length - 5 = l.length := by simp
  simp [dropLastCL, h, List.take_left]

/-- C9: the confidence tier is a function of the composite score alone (the
`tierOf` read by `_score_candidate`), with inclusive thresholds: a score of
exactly 0.85 or more is "high", of exactly 0.55 or more (below 0.85) is
"medium", and anything lower is "low". -/
theorem C9_tier_thresholds_inclusive (s : ℚ) :
    (tierOf s = ("high") ↔ (0.85 : ℚ) ≤ s) ∧
    (tierOf s = ("medium") ↔ (0.55 : ℚ) ≤ s ∧ s < (0.85 : ℚ)) ∧
    (tierOf s = ("low") ↔ s < (0.55 : ℚ)) := by
  unfold tierOf
  split_ifs with h1 h2
  · refine ⟨⟨fun _ => h1, fun _ => rfl⟩, ⟨fun h => absurd h (by decide), fun h => ?_⟩,
      ⟨fun h => absurd h (by decide), fun h => ?_⟩⟩
    · exact absurd h.2 (not_lt.mpr h1)
    · exact absurd h (not_lt.mpr (le_trans (by norm_num) h1))
  · refine ⟨⟨fun h => absurd h (by decide), fun h => absurd h h1⟩,
      ⟨fun _ => ⟨h2, not_le.mp h1⟩, fun _ => rfl⟩,
      ⟨fun h => absurd h (by decide), fun h => absurd h (not_lt.mpr h2)⟩⟩
  · refine ⟨⟨fun h => absurd h (by decide), fun h => absurd h h1⟩,
      ⟨fun h => absurd h (by decide), fun h => absurd h.1 h2⟩,
      ⟨fun _ => not_le.mp h2, fun _ => rfl⟩⟩

/-- C1: whenever the two columns' derived type classes differ, the Candidate
Scorer returns `none`, whatever the tables, flags and naming situation —
the naming block evaluated before the gate cannot rescue the pair. -/
theorem C1_type_gate_returns_none (rng : ℕ) (t1 : String) (col1 : Column) (df1 : DataFrame)
    (t2 : String) (col2 : Column) (df2 : DataFrame) (flags : Flags)
    (h : col_dtype_class col1 ≠ col_dtype_class col2) :
    scoreCandidate rng t1 col1 df1 t2 col2 df2 flags = none := by
  unfold scoreCandidate
  simp [h]

/-- Witness for C1: a string column literally named `customer_id` against a
datetime column named `customer_id` on table `customers` — the naming signal
matches exactly, yet the scorer returns `none`. -/
theorem C1_witness :
    is_fk_for (clean_name ("customer_id")) (clean_name ("customers")) = true ∧
    scoreCandidate 0 ("orders")
      { name := ("customer_id"), dcls := DClass.stringOther, vals := [] }
      { nrows := 0, cols := [] } ("customers")
      { name := ("customer_id"), dcls := DClass.datetime, vals := [] }
      { nrows := 0, cols := [] }
      { naming := true, value_overlap := false, cardinality := false,
        format := false, distribution := false, null_pattern := false } = none :=
  ⟨by decide,
   C1_type_gate_returns_none 0 (("orders"))
     { name := ("customer_id"), dcls := DClass.stringOther, vals := [] }
     { nrows := 0, cols := [] } (("customers"))
     { name := ("customer_id"), dcls := DClass.datetime, vals := [] }
     { nrows := 0, cols := [] }
     { naming := true, value_overlap := false, cardinality := false,
       format := false, distribution := false, null_pattern := false }
     (by decide)⟩

/-- C3: noisy-OR monotonicity — the composite score computed by
`_score_candidate` (`compositeOf`: `round(min(1, 1 - prod(1 - w)), 3)` over
the fired set) never decreases when one more fired signal is added. -/
theorem C3_noisy_or_monotone (S : List SignalKind) (s : SignalKind) (hs : s ∉ S) :
    compositeOf S ≤ compositeOf (s :: S) := by
  unfold compositeOf
  apply round3_mono
  apply min_le_min le_rfl
  have hb := prodOneSubWeight_bounds S
  have hk := oneSubWeight_mem s
  simp only [List.map_cons, List.prod_cons]
  nlinarith [hb.1, hb.2, hk.1, hk.2]

/-- Witness for C3: adding the exact-naming signal to a fired set holding
only the high-overlap signal does not decrease the composite score. -/
theorem C3_witness :
    SignalKind.naming_exact ∉ [SignalKind.overlap_high] ∧
    compositeOf [SignalKind.overlap_high] ≤
      compositeOf (SignalKind.naming_exact :: [SignalKind.overlap_high]) :=
  ⟨by decide, C3_noisy_or_monotone [SignalKind.overlap_high] SignalKind.naming_exact (by decide)⟩

/-- Counterexample for C7 as stated: the Name Normalizer's stem function
`id_stem` leaves `customer_key` unchanged instead of stripping `_key` to
give `customer`. -/
theorem C7_counterexample :
    id_stem ("customer_key") = ("customer_key") ∧
    ¬ id_stem ("customer_key") = ("customer") ∧
    id_stem ("invoice_no") = ("invoice_no") := by decide

/-- C7 amended: `id_stem` strips only one trailing `_id`; the five-suffix
strip (`_id`/`_key`/`_code`/`_num`/`_no`, one trailing occurrence) is
performed by the Candidate Scorer's inline stem (`scoreStemCL`), which for
example maps `customer_key` to `customer` and `invoice_no` to `invoice`. -/
theorem C7_amended_stem_behaviour (base : List Char) :
    scoreStemCL (base ++ ("_id").toList) = base ∧
    scoreStemCL (base ++ ("_key").toList) = base ∧
    scoreStemCL (base ++ ("_code").toList) = base ∧
    scoreStemCL (base ++ ("_num").toList) = base ∧
    scoreStemCL (base ++ ("_no").toList) = base ∧
    id_stemCL (base ++ ("_id").toList) = base ∧
    id_stemCL (base ++ ("_key").toList) = base ++ ("_key").toList ∧
    id_stemCL (base ++ ("_code").toList) = base ++ ("_code").toList ∧
    id_stemCL (base ++ ("_num").toList) = base ++ ("_num").toList ∧
    id_stemCL (base ++ ("_no").toList) = base ++ ("_no").toList := by
  have eid : ("_id").toList = ['_', 'i', 'd'] := rfl
  have ekey : ("_key").toList = ['_', 'k', 'e', 'y'] := rfl
  have ecode : ("_code").toList = ['_', 'c', 'o', 'd', 'e'] := rfl
  have enum : ("_num").toList = ['_', 'n', 'u', 'm'] := rfl
  have eno : ("_no").toList = ['_', 'n', 'o'] := rfl
  have m1 : endsWithCL (base ++ ['_', 'k', 'e', 'y']) ['_', 'i', 'd'] = false :=
    endsWithCL_append_last_ne base _ _ 'y' 'd' (by decide) (by decide) (by decide) (by decide)
  have m2 : endsWithCL (base ++ ['_', 'c', 'o', 'd', 'e']) ['_', 'i', 'd'] = false :=
    endsWithCL_append_last_ne base _ _ 'e' 'd' (by decide) (by decide) (by decide) (by decide)
  have m3 : endsWithCL (base ++ ['_', 'c', 'o', 'd', 'e']) ['_', 'k', 'e', 'y'] = false :=
    endsWithCL_append_last_ne base _ _ 'e' 'y' (by decide) (by decide) (by decide) (by decide)
  have m4 : endsWithCL (base ++ ['_', 'n', 'u', 'm']) ['_', 'i', 'd'] = false :=
    endsWithCL_append_last_ne base _ _ 'm' 'd' (by decide) (by decide) (by decide) (by decide)
  have m5 : endsWithCL (base ++ ['_', 'n', 'u', 'm']) ['_', 'k', 'e', 'y'] = false :=
    endsWithCL_append_last_ne base _ _ 'm' 'y' (by decide) (by decide) (by decide) (by decide)
  have m6 : endsWithCL (base ++ ['_', 'n', 'u', 'm']) ['_', 'c', 'o', 'd', 'e'] = false :=
    endsWithCL_append_last_ne base _ _ 'm' 'e' (by decide) (by decide) (by decide) (by decide)
  have m7 : endsWithCL (base ++ ['_', 'n', 'o']) ['_', 'i', 'd'] = false :=
    endsWithCL_append_last_ne base _ _ 'o' 'd' (by decide) (by decide) (by decide) (by decide)
  have m8 : endsWithCL (base ++ ['_', 'n', 'o']) ['_', 'k', 'e', 'y'] = false :=
    endsWithCL_append_last_ne base _ _ 'o' 'y' (by decide) (by decide) (by decide) (by decide)
  have m9 : endsWithCL (base ++ ['_', 'n', 'o']) ['_', 'c', 'o', 'd', 'e'] = false :=
    endsWithCL_append_last_ne base _ _ 'o' 'e' (by decide) (by decide) (by decide) (by decide)
  have m10 : endsWithCL (base ++ ['_', 'n', 'o']) ['_', 'n', 'u', 'm'] = false :=
    endsWithCL_append_last_ne base _ _ 'o' 'm' (by decide) (by decide) (by decide) (by decide)
  refine ⟨?_, ?_, ?_, ?_, ?_, ?_, ?_, ?_, ?_, ?_⟩ <;>
    simp only [scoreStemCL, id_stemCL, eid, ekey, ecode, enum, eno] <;>
    simp [endsWithCL_append_self, dropLastCL_append3, dropLastCL_append4, dropLastCL_append5,
      m1, m2, m3, m4, m5, m6, m7, m8, m9, m10]

/-- C2: the merged relationship list is exactly the declared relationships
(schema, then non-duplicate database constraints), followed by the surviving
inferred relationships, followed by all manual relationships; and for every
ordered table pair covered by at least one externally declared relationship
(schema file or database constraint), no inferred relationship with that
pair survives; manual relationships are never discarded. -/
theorem C2_merge_protocol (schema db auto manual : List AppRel) :
    mergeRels schema db auto manual =
      schemaPlusDb schema db ++ filteredAuto schema db auto ++ manual ∧
    (∀ d ∈ schema ++ db, ∀ r ∈ filteredAuto schema db auto,
      ¬(r.from_table = d.from_table ∧ r.to_table = d.to_table)) ∧
    (∀ m ∈ manual, m ∈ mergeRels schema db auto manual) := by
  refine ⟨rfl, ?_, ?_⟩
  · intro d hd r hr heq
    obtain ⟨he1, he2⟩ := heq
    rw [filteredAuto, List.mem_filter] at hr
    obtain ⟨hra, hfilt⟩ := hr
    have hpd : pairInDeclared (schemaPlusDb schema db) r = false := by
      cases h : pairInDeclared (schemaPlusDb schema db) r
      · rfl
      · rw [h] at hfilt; simp at hfilt
    rw [pairInDeclared, List.any_eq_false] at hpd
    have hcontra : ∀ x ∈ schemaPlusDb schema db,
        ¬(x.from_table = r.from_table ∧ x.to_table = r.to_table) := by
      intro x hx hc
      have hb := hpd x hx
      simp [hc.1, hc.2] at hb
    rcases List.mem_append.mp hd with hds | hddb
    · exact hcontra d (List.mem_append_left _ hds) ⟨he1.symm, he2.symm⟩
    · by_cases hk : (schema.any (fun s => relKeyEq s d)) = true
      · obtain ⟨s, hsmem, hsEq⟩ := List.any_eq_true.mp hk
        rw [relKeyEq] at hsEq
        simp only [Bool.and_eq_true, beq_iff_eq] at hsEq
        exact hcontra s (List.mem_append_left _ hsmem)
          ⟨by rw [hsEq.1.1.1, ← he1], by rw [hsEq.1.2, ← he2]⟩
      · have hdmem : d ∈ db.filter (fun r => !(schema.any (fun s => relKeyEq s r))) :=
          List.mem_filter.mpr ⟨hddb, by simp [hk]⟩
        exact hcontra d (List.mem_append_right _ hdmem) ⟨he1.symm, he2.symm⟩
  · intro m hm
    exact List.mem_append_right _ hm

/-- Witness for C2: one declared schema relationship for (orders, customers);
an inferred relationship on the distinct pair (orders, stores) survives the
filter, and the theorem instantiated there yields that its pair differs from
the declared pair. -/
theorem C2_witness :
    ¬((AppRel.mk ("orders") ("store_id") ("stores") ("store_id")).from_table =
        (AppRel.mk ("orders") ("customer_ref") ("customers") ("customer_id")).from_table ∧
      (AppRel.mk ("orders") ("store_id") ("stores") ("store_id")).to_table =
        (AppRel.mk ("orders") ("customer_ref") ("customers") ("customer_id")).to_table) :=
  (C2_merge_protocol [AppRel.mk ("orders") ("customer_ref") ("customers") ("customer_id")] []
      [AppRel.mk ("orders") ("store_id") ("stores") ("store_id")] []).2.1
    (AppRel.mk ("orders") ("customer_ref") ("customers") ("customer_id")) (by simp)
    (AppRel.mk ("orders") ("store_id") ("stores") ("store_id")) (by decide)

/-- C5: for every table and mode the Primary-Key Detector returns at most
one column; and whenever the mode includes naming and some column's
canonical name satisfies the naming rule (`is_pk_name`: canonical name `id`,
or `{canonical(table)}_id`, or ending in `_id` with the table's canonical
name starting with the column's stem), the first such column in column order
is returned, regardless of uniqueness or null content. -/
theorem C5_pk_detector (df : DataFrame) (table_name : String) (method : String) :
    (detect_pks df table_name method).length ≤ 1 ∧
    (∀ c0 : Column,
      (method = ("naming") ∨ method = ("both")) →
      df.cols.find? (fun c => is_pk_name (clean_name c.name) (clean_name table_name)) = some c0 →
      detect_pks df table_name method = [c0.name]) := by
  constructor
  · unfold detect_pks
    split
    · simp
    · split
      · split
        · simp
        · split
          · simp
          · simp
      · simp
  · intro c0 hm hfind
    have hb : (method == ("naming") || method == ("both")) = true := by
      rcases hm with h | h <;> simp [h]
    unfold detect_pks
    simp [hb, hfind]

/-- Witness for C5: a table whose `id` column is full of duplicate values
(so definitely not unique) is still reported as the primary key by the
naming rule. -/
theorem C5_witness :
    detect_pks
      { nrows := 2,
        cols := [{ name := ("id"), dcls := DClass.numeric,
                   vals := [some ("1"), some ("1")] }] }
      ("people") ("both") = [("id")] :=
  (C5_pk_detector
      { nrows := 2,
        cols := [{ name := ("id"), dcls := DClass.numeric,
                   vals := [some ("1"), some ("1")] }] }
      (("people")) (("both"))).2
    { name := ("id"), dcls := DClass.numeric, vals := [some ("1"), some ("1")] }
    (Or.inr rfl) (by decide)

/-- C10: any `min_confidence` string outside low/medium/high is mapped by
`CONF_RANK.get(min_confidence, 1)` to the medium rank, so `detect_fks`
behaves exactly as if `min_confidence` were "medium". -/
theorem C10_unknown_min_confidence_defaults_medium (tables : List (String × DataFrame))
    (method : String) (enable_flags : Option Flags) (rng : ℕ) (mc : String)
    (h1 : mc ≠ ("low")) (h2 : mc ≠ ("medium")) (h3 : mc ≠ ("high")) :
    detect_fks tables method mc enable_flags rng =
      detect_fks tables method ("medium") enable_flags rng := by
  have b1 : (mc == ("low")) = false := beq_eq_false_iff_ne.mpr h1
  have b2 : (mc == ("medium")) = false := beq_eq_false_iff_ne.mpr h2
  have b3 : (mc == ("high")) = false := beq_eq_false_iff_ne.mpr h3
  have hrank : confRankDefault1 mc = confRankDefault1 ("medium") := by
    simp [confRankDefault1, CONF_RANK, List.lookup, b1, b2, b3]
  unfold detect_fks
  rw [hrank]

/-- Witness for C10: the unknown string "banana" behaves as "medium". -/
theorem C10_witness :
    detect_fks [(("a"), { nrows := 0, cols := [] }), (("b"), { nrows := 0, cols := [] })]
      ("both") ("banana") none 0 =
    detect_fks [(("a"), { nrows := 0, cols := [] }), (("b"), { nrows := 0, cols := [] })]
      ("both") ("medium") none 0 :=
  C10_unknown_min_confidence_defaults_medium
    [(("a"), { nrows := 0, cols := [] }), (("b"), { nrows := 0, cols := [] })]
    (("both")) none 0 (("banana")) (by decide) (by decide) (by decide)

/-- C4: determinism of `detect_fks` — the result does not depend on the
ambient interpreter randomness `rng`, because the format-fingerprint sampler
pins `random_state=42`; together with the engine being a pure function of
its arguments (it holds no state between calls), two runs on identical
tables, method, minimum confidence and flags return identical ordered
result lists, including the pseudo-randomly sampled format signal. -/
theorem C4_determinism (tables : List (String × DataFrame)) (method : String)
    (min_confidence : String) (enable_flags : Option Flags) (r1 r2 : ℕ) :
    detect_fks tables method min_confidence enable_flags r1 =
      detect_fks tables method min_confidence enable_flags r2 := rfl


theorem agreeCount_range_eq_zip (k : ℕ) :
    ∀ (s1 s2 : List Char),
      ((List.range (min (min k s1.length) s2.length)).filter
        (fun i => s1.getD i ' ' == s2.getD i ' ')).length =
      ((s1.zip s2).take k).countP (fun p => p.1 == p.2) := by
  induction k with
  | zero => intro s1 s2; simp
  | succ m ih =>
    intro s1 s2
    cases s1 with
    | nil => simp
    | cons a t1 =>
      cases s2 with
      | nil => simp
      | cons b t2 =>
        have hmin : min (min (m + 1) (t1.length + 1)) (t2.length + 1) =
            min (min m t1.length) t2.length + 1 := by omega
        rw [List.length_cons, List.length_cons, hmin, List.range_succ_eq_map,
          List.zip_cons_cons, List.take_succ_cons, List.filter_cons, List.countP_cons]
        simp only [List.getD_cons_zero, List.getD_cons_succ, List.filter_map,
          List.length_map, List.countP_cons, Function.comp_def]
        rw [← ih t1 t2]
        by_cases hab : (a == b) = true <;> simp [hab]

theorem prefAgreeCount_eq_zip (s1 s2 : List Char) :
    prefAgreeCount s1 s2 = ((s1.zip s2).take 4).countP (fun p => p.1 == p.2) :=
  agreeCount_range_eq_zip 4 s1 s2

/-- Counterexample for C8 as stated: on `abcd` vs `axcd` the source's
Winkler boost multiplier is 3 (positions 0, 2, 3 agree within the first
four), not the consecutive-common-prefix length 1, so the adjustment added
to the Jaro similarity differs from 0.1 x consecutive-prefix x (1 - jaro). -/
theorem C8_counterexample :
    jaro_winkler ['a', 'b', 'c', 'd'] ['a', 'x', 'c', 'd'] ≠
      jaroSim ['a', 'b', 'c', 'd'] ['a', 'x', 'c', 'd'] +
        ((specConsecPrefixLen ['a', 'b', 'c', 'd'] ['a', 'x', 'c', 'd'] : ℕ) : ℚ) * 0.1 *
          (1 - jaroSim ['a', 'b', 'c', 'd'] ['a', 'x', 'c', 'd']) := by
  have hc : jwCounts ['a', 'b', 'c', 'd'] ['a', 'x', 'c', 'd'] = (3, 0) := by decide
  have hp : prefAgreeCount ['a', 'b', 'c', 'd'] ['a', 'x', 'c', 'd'] = 3 := by decide
  have hs : specConsecPrefixLen ['a', 'b', 'c', 'd'] ['a', 'x', 'c', 'd'] = 1 := by decide
  have hne : (['a', 'b', 'c', 'd'] : List Char) ≠ ['a', 'x', 'c', 'd'] := by decide
  unfold jaro_winkler jaroSim
  rw [hs, hc, hp]
  rw [if_neg hne]
  norm_num

/-- C8 amended: the Winkler adjustment added to the Jaro similarity equals
0.1 x L x (1 - jaro) where L is the number of positions among the first
min(4, |s1|, |s2|) at which the two strings agree — counted position-wise,
not only over the consecutive leading prefix (stated here through the
independent zip-count formulation). -/
theorem C8_amended_positionwise_prefix (s1 s2 : List Char) (h1 : s1 ≠ s2)
    (h2 : s1.length ≠ 0) (h3 : s2.length ≠ 0) (h4 : (jwCounts s1 s2).1 ≠ 0) :
    jaro_winkler s1 s2 =
      jaroSim s1 s2 +
        ((((s1.zip s2).take 4).countP (fun p => p.1 == p.2) : ℕ) : ℚ) * 0.1 *
          (1 - jaroSim s1 s2) := by
  unfold jaro_winkler
  rw [if_neg h1, if_neg (by push_neg; exact ⟨h2, h3⟩), if_neg h4, prefAgreeCount_eq_zip]

/-- Witness for the amended C8 at the concrete pair `abcd` / `axcd`. -/
theorem C8_amended_witness :
    jaro_winkler ['a', 'b', 'c', 'd'] ['a', 'x', 'c', 'd'] =
      jaroSim ['a', 'b', 'c', 'd'] ['a', 'x', 'c', 'd'] +
        (((['a', 'b', 'c', 'd'].zip ['a', 'x', 'c', 'd']).take 4).countP
            (fun p => p.1 == p.2) : ℚ) * 0.1 *
          (1 - jaroSim ['a', 'b', 'c', 'd'] ['a', 'x', 'c', 'd']) :=
  C8_amended_positionwise_prefix ['a', 'b', 'c', 'd'] ['a', 'x', 'c', 'd']
    (by decide) (by decide) (by decide) (by decide)

theorem assocSet_lookup_self (m : List (String × ℚ)) (k : String) (v : ℚ) :
    (assocSet m k v).lookup k = some v := by
  induction m with
  | nil => simp [assocSet, List.lookup]
  | cons p rest ih =>
    obtain ⟨pk, pv⟩ := p
    unfold assocSet
    by_cases h : (pk == k) = true
    · rw [if_pos h]
      simp [List.lookup]
    · rw [if_neg h]
      have hk : (k == pk) = false := by
        rw [beq_eq_false_iff_ne]
        intro he
        rw [he] at h
        simp at h
      simp [List.lookup, hk, ih]

/-- C6: the sequential near-best filter of `detect_fks`.  Under the loop
conditions that precede it (distinct tables, unseen key, a best-scoring
candidate for the target table, confidence at or above the cutoff), the
candidate is skipped exactly when a running value exists for the source
column and exceeds the candidate's score by more than 0.05; and when the
candidate is accepted, the running value is set to that candidate's score —
the most recently accepted score, not the maximum seen so far. -/
theorem C6_near_best_filter (rng : ℕ) (flags : Flags) (min_rank : ℕ) (t1 : String)
    (col1 : Column) (df1 : DataFrame) (st : FkState) (t2 : String) (df2 : DataFrame)
    (res : ScoreResult) (bcol : Column)
    (h1 : (t2 == t1) = false)
    (h2 : st.seen.contains (t1 ++ ("|") ++ col1.name ++ ("|") ++ t2) = false)
    (h3 : bestOverTargets rng t1 col1 df1 t2 df2 flags = some (res, bcol))
    (h4 : ¬ confRankDefault0 res.confidence < min_rank) :
    (processTarget rng flags min_rank t1 col1 df1 st (t2, df2) = st ↔
      ∃ prev, st.best.lookup (t1 ++ ("|") ++ col1.name) = some prev ∧
        res.score + 0.05 < prev) ∧
    (processTarget rng flags min_rank t1 col1 df1 st (t2, df2) ≠ st →
      (processTarget rng flags min_rank t1 col1 df1 st (t2, df2)).best.lookup
          (t1 ++ ("|") ++ col1.name) = some res.score ∧
      (processTarget rng flags min_rank t1 col1 df1 st (t2, df2)).results =
        st.results ++ [mkRel t1 col1 t2 bcol res]) := by
  have h2m : (t1 ++ ("|") ++ col1.name ++ ("|") ++ t2) ∉ st.seen := by simpa using h2
  cases hlk : st.best.lookup (t1 ++ ("|") ++ col1.name) with
  | none =>
    have hstep : processTarget rng flags min_rank t1 col1 df1 st (t2, df2) =
        { results := st.results ++ [mkRel t1 col1 t2 bcol res],
          seen := st.seen ++ [t1 ++ ("|") ++ col1.name ++ ("|") ++ t2],
          best := assocSet st.best (t1 ++ ("|") ++ col1.name) res.score } := by
      unfold processTarget
      simp [h1, h2m, h3, h4, hlk]
    constructor
    · constructor
      · intro he
        rw [hstep] at he
        have hlen := congrArg (fun s => s.results.length) he
        simp at hlen
      · rintro ⟨prev, hp, _⟩
        exact Option.noConfusion hp
    · intro _
      rw [hstep]
      exact ⟨assocSet_lookup_self _ _ _, rfl⟩
  | some prev =>
    by_cases hgt : res.score + 0.05 < prev
    · have hstep : processTarget rng flags min_rank t1 col1 df1 st (t2, df2) = st := by
        unfold processTarget
        simp [h1, h2m, h3, h4, hlk, hgt]
      constructor
      · exact ⟨fun _ => ⟨prev, rfl, hgt⟩, fun _ => hstep⟩
      · intro hne
        exact absurd hstep hne
    · have hstep : processTarget rng flags min_rank t1 col1 df1 st (t2, df2) =
          { results := st.results ++ [mkRel t1 col1 t2 bcol res],
            seen := st.seen ++ [t1 ++ ("|") ++ col1.name ++ ("|") ++ t2],
            best := assocSet st.best (t1 ++ ("|") ++ col1.name) res.score } := by
        unfold processTarget
        simp [h1, h2m, h3, h4, hlk, hgt]
      constructor
      · constructor
        · intro he
          rw [hstep] at he
          have hlen := congrArg (fun s => s.results.length) he
          simp at hlen
        · rintro ⟨prev', hp', hgt'⟩
          exact absurd (by rw [Option.some.inj hp']; exact hgt' : res.score + 0.05 < prev) hgt
      · intro _
        rw [hstep]
        exact ⟨assocSet_lookup_self _ _ _, rfl⟩

/-- Example flags: naming only (used by the near-best filter witness). -/
def exFlags : Flags :=
  { naming := true, value_overlap := false, cardinality := false,
    format := false, distribution := false, null_pattern := false }

/-- Example source column for the near-best filter witness. -/
def exCol1 : Column := { name := ("customer_id"), dcls := DClass.stringOther, vals := [] }

/-- Example source table for the near-best filter witness. -/
def exDf1 : DataFrame := { nrows := 0, cols := [exCol1] }

/-- Example target column for the near-best filter witness. -/
def exCol2 : Column := { name := ("customer_id"), dcls := DClass.stringOther, vals := [] }

/-- Example target table for the near-best filter witness. -/
def exDf2 : DataFrame := { nrows := 0, cols := [exCol2] }

/-- The score result produced on the example pair: exact naming only. -/
def exRes : ScoreResult :=
  { signals := [(SignalKind.naming_exact, 1)], reasons := [Reason.exactNaming],
    score := 1, confidence := ("high"), detected_by := ("naming") }

/-- Witness for C6: on a concrete orders/customers pair with an empty
running-best map, the candidate is accepted, the running value becomes its
score, and the relationship is appended. -/
theorem C6_witness :
    processTarget 0 exFlags 0 ("orders") exCol1 exDf1
        { results := [], seen := [], best := [] } (("customers"), exDf2) ≠
      { results := [], seen := [], best := [] } ∧
    (processTarget 0 exFlags 0 ("orders") exCol1 exDf1
        { results := [], seen := [], best := [] } (("customers"), exDf2)).best.lookup
        (("orders") ++ ("|") ++ ("customer_id")) = some 1 ∧
    (processTarget 0 exFlags 0 ("orders") exCol1 exDf1
        { results := [], seen := [], best := [] } (("customers"), exDf2)).results =
      [mkRel ("orders") exCol1 ("customers") exCol2 exRes] := by
  have hfk : is_fk_for (clean_name ("customer_id")) (clean_name ("customers")) = true := by
    decide
  have hround : round3 1 = 1 := by
    unfold round3 rhe
    norm_num
  have hcomp : compositeOf [SignalKind.naming_exact] = 1 := by
    have hval : min (1 : ℚ) (1.00 : ℚ) = 1 := by norm_num
    unfold compositeOf
    simp [weightGet_eval_naming_exact, hval, hround]
  have htier : tierOf 1 = ("high") := by norm_num [tierOf]
  have hlab : labelGet SignalKind.naming_exact = ("naming") := rfl
  have hsc : scoreCandidate 0 ("orders") exCol1 exDf1 ("customers") exCol2 exDf2 exFlags =
      some exRes := by
    unfold scoreCandidate namingSignals overlapSignals cardinalitySignals formatSignals
      distributionSignals nullSignals
    simp [exFlags, exCol1, exCol2, exDf1, exDf2, exRes, hfk, hcomp, htier, hlab, topSignal,
      col_dtype_class]
  have htc : targetCols exDf1 exDf2 = [exCol2] := by
    unfold targetCols pkColsOf tooLarge
    simp [exDf1, exDf2]
  have h3 : bestOverTargets 0 ("orders") exCol1 exDf1 ("customers") exDf2 exFlags =
      some (exRes, exCol2) := by
    unfold bestOverTargets
    rw [htc]
    simp [hsc]
  have main := C6_near_best_filter 0 exFlags 0 ("orders") exCol1 exDf1
      { results := [], seen := [], best := [] } ("customers") exDf2 exRes exCol2
      (by decide) (by decide) h3 (by decide)
  have hne : processTarget 0 exFlags 0 ("orders") exCol1 exDf1
      { results := [], seen := [], best := [] } (("customers"), exDf2) ≠
      { results := [], seen := [], best := [] } := by
    intro he
    obtain ⟨prev, hp, _⟩ := main.1.mp he
    simp [List.lookup] at hp
  exact ⟨hne, (main.2 hne).1, (main.2 hne).2⟩
